import Mathlib

/-!
Verification of the Electric Sync offline queue subsystem
(`src-tauri/src/electric_sync.rs`).

The Rust module owns an in-memory queue of `SyncQueueItem` plus a persisted
JSON snapshot on disk.  We embed it shallowly:

* machine state is split into `ElectricSync` (the in-memory queue; the
  constant `queue_path` is irrelevant to behaviour and omitted) and
  `FsState` (the durable snapshot plus flags saying whether the next
  write or read would fail, modelling `fs::write` / `fs::read_to_string`
  IO errors);
* `&mut self` methods become functions `... → Except String α × ElectricSync
  × FsState`: the returned state is what the caller's `self` holds after the
  call, whether or not the method returned `Err` (Rust mutations performed
  before an early `return Err` stick);
* serde's derived serialization of `SyncQueueItem` is embedded at the JSON
  value level (`Json`): the derive macro emits an object with the struct's
  fields in declaration order, `Option<String>` as `null` / string, and the
  deserializer looks fields up by name.  `serde_json`'s text layer is an
  external crate and is not modelled.
* the async mock `sync_item` always answers `Ok(true)`; the spec treats the
  remote sync adapter as an injected collaborator, so `flush` is
  parameterised by an adapter function and `sync_item` is the mock instance.
-/

/-- JSON values, the target of serde serialization (numbers restricted to
integers: the only numeric field is the `i64` timestamp). -/
inductive Json where
  | null : Json
  | bool : Bool → Json
  | num : Int → Json
  | str : String → Json
  | arr : List Json → Json
  | obj : List (String × Json) → Json
deriving Repr

/-- `SyncQueueItem` from `electric_sync.rs`: one pending or completed local
mutation. `i64` timestamps are modelled as `Int`. -/
structure SyncQueueItem where
  id : String
  action : String
  path : String
  content : Option String
  timestamp : Int
  synced : Bool
deriving Repr, DecidableEq

/-- `ConflictResolution` from `electric_sync.rs`. -/
structure ConflictResolution where
  strategy : String
  local_version : String
  remote_version : String
  resolved_content : Option String
deriving Repr, DecidableEq

/-- `FlushResult` from `electric_sync.rs`. -/
structure FlushResult where
  processed : Nat
  failed : Nat
  conflicts : List String
deriving Repr, DecidableEq

/-- `QueueStats` from `electric_sync.rs`; the `HashMap<String, usize>` is
modelled extensionally as a total function defaulting to 0 (a key absent
from the map counts 0). -/
structure QueueStats where
  total : Nat
  pending : Nat
  synced : Nat
  by_action : String → Nat

/-- In-memory state of `ElectricSync` (its `queue` field). -/
structure ElectricSync where
  queue : List SyncQueueItem
deriving Repr, DecidableEq

/-- The durable side: contents of `.nova/sync-queue.json` (none = file does
not exist), plus environment flags for whether `fs::write` or
`fs::read_to_string` would fail with an IO error. -/
structure FsState where
  snapshot : Option Json
  writeFails : Bool
  readFails : Bool

/-- serde serialization of one item: object with the fields in declaration
order, `content : Option<String>` as `null`/string. -/
def SyncQueueItem.toJson (i : SyncQueueItem) : Json :=
  Json.obj
    [ ("id", Json.str i.id),
      ("action", Json.str i.action),
      ("path", Json.str i.path),
      ("content", match i.content with
        | none => Json.null
        | some c => Json.str c),
      ("timestamp", Json.num i.timestamp),
      ("synced", Json.bool i.synced) ]

/-- Field lookup in a JSON object, as serde's deserializer does by name. -/
def Json.getField (j : Json) (name : String) : Option Json :=
  match j with
  | Json.obj fields => fields.lookup name
  | _ => none

/-- Decode a JSON value as a Rust `String`. -/
def Json.asString : Json → Option String
  | Json.str s => some s
  | _ => none

/-- Decode a JSON value as a Rust `Option<String>`. -/
def Json.asOptString : Json → Option (Option String)
  | Json.null => some none
  | Json.str s => some (some s)
  | _ => none

/-- Decode a JSON value as a Rust `i64`. -/
def Json.asInt : Json → Option Int
  | Json.num n => some n
  | _ => none

/-- Decode a JSON value as a Rust `bool`. -/
def Json.asBool : Json → Option Bool
  | Json.bool b => some b
  | _ => none

/-- serde deserialization of one item: every field must be present and of
the right shape, fields found by name. -/
def SyncQueueItem.fromJson (j : Json) : Option SyncQueueItem := do
  let id ← (← j.getField "id").asString
  let action ← (← j.getField "action").asString
  let path ← (← j.getField "path").asString
  let content ← (← j.getField "content").asOptString
  let timestamp ← (← j.getField "timestamp").asInt
  let synced ← (← j.getField "synced").asBool
  pure ⟨id, action, path, content, timestamp, synced⟩

/-- serde serialization of the whole queue (`Vec<SyncQueueItem>` → array). -/
def encodeItems (items : List SyncQueueItem) : Json :=
  Json.arr (items.map SyncQueueItem.toJson)

/-- serde deserialization of a JSON array's elements, front to back; any
element failing to decode fails the whole parse. -/
def decodeItemList : List Json → Option (List SyncQueueItem)
  | [] => some []
  | j :: rest => do
    let i ← SyncQueueItem.fromJson j
    let tail ← decodeItemList rest
    pure (i :: tail)

/-- serde deserialization of the whole queue. -/
def decodeItems (j : Json) : Option (List SyncQueueItem) :=
  match j with
  | Json.arr xs => decodeItemList xs
  | _ => none

/-- `persist_queue`: serialize the full queue and overwrite the snapshot;
an IO failure (directory creation or write) aborts with the error the code
formats from it. -/
def persist_queue (queue : List SyncQueueItem) (fs : FsState) :
    Except String FsState :=
  if fs.writeFails then Except.error "Failed to write queue"
  else Except.ok { fs with snapshot := some (encodeItems queue) }

/-- `load_queue`: a missing snapshot file is an empty queue; otherwise read
(possible IO error) and parse (possible corrupt-data error). -/
def load_queue (s : ElectricSync) (fs : FsState) : Except String ElectricSync :=
  match fs.snapshot with
  | none => Except.ok { s with queue := [] }
  | some j =>
    if fs.readFails then Except.error "Failed to read queue"
    else
      match decodeItems j with
      | some items => Except.ok { s with queue := items }
      | none => Except.error "Failed to parse queue"

/-- Shared tail of every mutating method: the in-memory queue is already
`q` (the mutation happened on `&mut self` first), then `persist_queue`
runs; on error the method reports it but the in-memory mutation stands. -/
def persistAfter (q : List SyncQueueItem) (s : ElectricSync) (fs : FsState) :
    Except String Unit × ElectricSync × FsState :=
  match persist_queue q fs with
  | Except.ok fs2 => (Except.ok (), { s with queue := q }, fs2)
  | Except.error e => (Except.error e, { s with queue := q }, fs)

/-- `enqueue`: push to the back of the queue, then persist. -/
def enqueue (item : SyncQueueItem) (s : ElectricSync) (fs : FsState) :
    Except String Unit × ElectricSync × FsState :=
  persistAfter (s.queue ++ [item]) s fs

/-- `get_pending`: all items with `synced = false`, in queue order. -/
def get_pending (s : ElectricSync) : List SyncQueueItem :=
  s.queue.filter (fun i => !i.synced)

/-- The body of `flush`'s `for` loop over `queue.iter_mut().filter(|i| !i.synced)`,
processing items front to back.  Returns the queue after the in-place
mutations, the aggregated `FlushResult`, and the trace of items handed to
the adapter (in call order). -/
def flushLoop (adapter : SyncQueueItem → Except String Bool) :
    List SyncQueueItem → List SyncQueueItem × FlushResult × List SyncQueueItem
  | [] => ([], ⟨0, 0, []⟩, [])
  | item :: rest =>
    if item.synced then
      (item :: (flushLoop adapter rest).1, (flushLoop adapter rest).2)
    else
      match adapter item with
      | Except.ok true =>
        ({ item with synced := true } :: (flushLoop adapter rest).1,
          { (flushLoop adapter rest).2.1 with
              processed := (flushLoop adapter rest).2.1.processed + 1 },
          item :: (flushLoop adapter rest).2.2)
      | Except.ok false =>
        (item :: (flushLoop adapter rest).1,
          { (flushLoop adapter rest).2.1 with
              conflicts := item.id :: (flushLoop adapter rest).2.1.conflicts },
          item :: (flushLoop adapter rest).2.2)
      | Except.error _ =>
        (item :: (flushLoop adapter rest).1,
          { (flushLoop adapter rest).2.1 with
              failed := (flushLoop adapter rest).2.1.failed + 1 },
          item :: (flushLoop adapter rest).2.2)

/-- `flush`: run the loop, `retain(|item| !item.synced)`, persist (the `?`
propagates a persistence error after the retain already happened), return
the aggregated result. -/
def flush (adapter : SyncQueueItem → Except String Bool)
    (s : ElectricSync) (fs : FsState) :
    Except String FlushResult × ElectricSync × FsState :=
  let q2 := (flushLoop adapter s.queue).1.filter (fun i => !i.synced)
  match persist_queue q2 fs with
  | Except.ok fs2 => (Except.ok (flushLoop adapter s.queue).2.1, { s with queue := q2 }, fs2)
  | Except.error e => (Except.error e, { s with queue := q2 }, fs)

/-- The trace of adapter calls a `flush` performs, in order. -/
def flushCalls (adapter : SyncQueueItem → Except String Bool)
    (s : ElectricSync) : List SyncQueueItem :=
  (flushLoop adapter s.queue).2.2

/-- The mock `sync_item` of `electric_sync.rs`: always `Ok(true)`. -/
def sync_item (_ : SyncQueueItem) : Except String Bool :=
  Except.ok true

/-- Mutate the first element satisfying `p` (what
`queue.iter_mut().find(...)` followed by an in-place update does). -/
def updateFirst (p : SyncQueueItem → Bool) (f : SyncQueueItem → SyncQueueItem) :
    List SyncQueueItem → List SyncQueueItem
  | [] => []
  | x :: xs => if p x then f x :: xs else x :: updateFirst p f xs

/-- `resolve_conflict`: find the item by id (first match); dispatch on the
strategy string; `last-write-wins` clears `synced`; `merge` overwrites
`content` and clears `synced` when `resolved_content` is present and
otherwise changes nothing (the `if let` has no else branch); any other
strategy errors without touching the queue; a found item always ends in
`persist_queue`; a missing id errors. -/
def resolve_conflict (item_id : String) (resolution : ConflictResolution)
    (s : ElectricSync) (fs : FsState) :
    Except String Unit × ElectricSync × FsState :=
  if s.queue.any (fun i => i.id == item_id) then
    match resolution.strategy with
    | "last-write-wins" =>
      persistAfter
        (updateFirst (fun i => i.id == item_id)
          (fun i => { i with synced := false }) s.queue) s fs
    | "merge" =>
      match resolution.resolved_content with
      | some content =>
        persistAfter
          (updateFirst (fun i => i.id == item_id)
            (fun i => { i with content := some content, synced := false })
            s.queue) s fs
      | none => persistAfter s.queue s fs
    | _ => (Except.error "Unknown conflict strategy", s, fs)
  else (Except.error "Item not found", s, fs)

/-- `get_stats`: pure computation; the `HashMap` build
`*by_action.entry(item.action.clone()).or_insert(0) += 1` is a left fold of
point updates starting from the empty (all-zero) map. -/
def get_stats (s : ElectricSync) : QueueStats :=
  let total := s.queue.length
  let pending := (s.queue.filter (fun i => !i.synced)).length
  let synced := total - pending
  let by_action :=
    s.queue.foldl
      (fun m i => fun k => if k == i.action then m i.action + 1 else m k)
      (fun _ => 0)
  ⟨total, pending, synced, by_action⟩

/-- `clear`: drop every item, then `let _ = self.persist_queue();` — the
persistence result is discarded, so the caller sees no error either way. -/
def clear (_s : ElectricSync) (fs : FsState) : ElectricSync × FsState :=
  match persist_queue [] fs with
  | Except.ok fs2 => (⟨[]⟩, fs2)
  | Except.error _ => (⟨[]⟩, fs)

/-! Concrete fixtures used by witnesses and counterexamples. -/

/-- A pending "update" item, id "i1", content "old". -/
def exItem1 : SyncQueueItem := ⟨"i1", "update", "/x", some "old", 1, false⟩

/-- The same item already marked synced. -/
def exItem1S : SyncQueueItem := ⟨"i1", "update", "/x", some "old", 1, true⟩

/-- A pending "create" item, id "i2". -/
def exItem2 : SyncQueueItem := ⟨"i2", "create", "/y", some "v", 2, false⟩

/-- A merge resolution carrying no resolved content. -/
def exMergeNone : ConflictResolution := ⟨"merge", "local-v1", "remote-v1", none⟩

/-- A resolution with an unrecognized strategy. -/
def exBogus : ConflictResolution := ⟨"bogus", "local-v1", "remote-v1", none⟩

/-- A last-write-wins resolution. -/
def exLww : ConflictResolution := ⟨"last-write-wins", "local-v1", "remote-v1", none⟩

/-- A healthy file system whose snapshot mirrors the queue `[exItem1]`. -/
def exFsOk : FsState := ⟨some (encodeItems [exItem1]), false, false⟩

/-- A file system whose next write fails, snapshot mirroring `[exItem1S]`. -/
def exFsBadWrite : FsState := ⟨some (encodeItems [exItem1S]), true, false⟩

/-- A healthy file system whose snapshot mirrors the queue `[exItem1S]`. -/
def exFsSyncedSnap : FsState := ⟨some (encodeItems [exItem1S]), false, false⟩

/-- Queue of the three items of the stats example: two pending "create",
one pending "update". -/
def statsExample : ElectricSync :=
  ⟨[⟨"s1", "create", "/a", some "1", 1, false⟩,
    ⟨"s2", "create", "/b", some "2", 2, false⟩,
    ⟨"s3", "update", "/c", some "3", 3, false⟩]⟩

/-- An adapter exercising all three outcomes: conflict for id "c",
failure for id "f", success otherwise. -/
def mixedAdapter (i : SyncQueueItem) : Except String Bool :=
  if i.id == "c" then Except.ok false
  else if i.id == "f" then Except.error "boom"
  else Except.ok true

/-- Three pending items routed by `mixedAdapter` to success, conflict and
failure respectively. -/
def mixedQueue : ElectricSync :=
  ⟨[⟨"p", "create", "/a", some "1", 1, false⟩,
    ⟨"c", "create", "/b", some "2", 2, false⟩,
    ⟨"f", "update", "/c", none, 3, false⟩]⟩

/-! Helper lemmas shared by the claim theorems. -/

/-- Deserializing a serialized item gives the item back, every field intact. -/
theorem fromJson_toJson (i : SyncQueueItem) :
    SyncQueueItem.fromJson (SyncQueueItem.toJson i) = some i := by
  cases i with
  | mk id action path content timestamp synced => cases content <;> rfl

/-- Deserializing a serialized queue gives the queue back, in order. -/
theorem decodeItems_encodeItems (items : List SyncQueueItem) :
    decodeItems (encodeItems items) = some items := by
  induction items with
  | nil => rfl
  | cons i rest ih =>
    simp only [decodeItems, encodeItems, List.map_cons, decodeItemList] at *
    simp [fromJson_toJson, ih]

/-- The in-memory queue after `persistAfter` is the mutated queue, whether
or not persistence succeeded. -/
theorem persistAfter_queue (q : List SyncQueueItem) (s : ElectricSync)
    (fs : FsState) : (persistAfter q s fs).2.1.queue = q := by
  unfold persistAfter
  cases h : persist_queue q fs <;> rfl

/-- When `persistAfter` reports an error the snapshot is untouched. -/
theorem persistAfter_error_fs (q : List SyncQueueItem) (s : ElectricSync)
    (fs : FsState) (e : String) (h : (persistAfter q s fs).1 = Except.error e) :
    (persistAfter q s fs).2.2 = fs := by
  unfold persistAfter persist_queue at *
  by_cases hw : fs.writeFails <;> simp [hw] at h ⊢

/-- When `persistAfter` succeeds the snapshot now encodes the mutated queue. -/
theorem persistAfter_ok_fs (q : List SyncQueueItem) (s : ElectricSync)
    (fs : FsState) (h : (persistAfter q s fs).1 = Except.ok ()) :
    (persistAfter q s fs).2.2.snapshot = some (encodeItems q) := by
  unfold persistAfter persist_queue at *
  by_cases hw : fs.writeFails <;> simp [hw] at h ⊢

/-- The adapter-call trace of the flush loop is exactly the pending items,
in queue order. -/
theorem flushLoop_calls (adapter : SyncQueueItem → Except String Bool)
    (q : List SyncQueueItem) :
    (flushLoop adapter q).2.2 = q.filter (fun i => !i.synced) := by
  induction q with
  | nil => rfl
  | cons item rest ih =>
    by_cases h : item.synced
    · simp [flushLoop, h, ih]
    · cases ha : adapter item with
      | ok b => cases b <;> simp [flushLoop, h, ha, ih]
      | error e => simp [flushLoop, h, ha, ih]

/-- The flush loop's counters and conflict list partition the pending
items; conflict ids form a sublist of the pending ids. -/
theorem flushLoop_partition (adapter : SyncQueueItem → Except String Bool)
    (q : List SyncQueueItem) :
    (flushLoop adapter q).2.1.processed + (flushLoop adapter q).2.1.failed
        + (flushLoop adapter q).2.1.conflicts.length
      = (q.filter (fun i => !i.synced)).length
    ∧ (flushLoop adapter q).2.1.conflicts.Sublist
        ((q.filter (fun i => !i.synced)).map (fun i => i.id)) := by
  induction q with
  | nil => exact ⟨rfl, List.Sublist.refl _⟩
  | cons item rest ih =>
    have h1 := ih.1
    have h2 := ih.2
    by_cases h : item.synced
    · constructor
      · simpa [flushLoop, h] using h1
      · simpa [flushLoop, h] using h2
    · cases ha : adapter item with
      | ok b =>
        cases b with
        | false =>
          constructor
          · simp only [flushLoop, h]
            simp [ha, List.filter_cons, h]
            omega
          · simp only [flushLoop, h]
            simpa [ha, List.filter_cons, h] using List.Sublist.cons₂ item.id h2
        | true =>
          constructor
          · simp only [flushLoop, h]
            simp [ha, List.filter_cons, h]
            omega
          · simp only [flushLoop, h]
            simpa [ha, List.filter_cons, h] using List.Sublist.cons item.id h2
      | error e =>
        constructor
        · simp only [flushLoop, h]
          simp [ha, List.filter_cons, h]
          omega
        · simp only [flushLoop, h]
          simpa [ha, List.filter_cons, h] using List.Sublist.cons item.id h2

/-- On a queue with no pending items the flush loop does nothing: the queue
is returned as-is, the counters are zero and the adapter is never called. -/
theorem flushLoop_all_synced (adapter : SyncQueueItem → Except String Bool)
    (q : List SyncQueueItem) (h : q.all (fun i => i.synced) = true) :
    flushLoop adapter q = (q, ⟨0, 0, []⟩, []) := by
  induction q with
  | nil => rfl
  | cons item rest ih =>
    simp only [List.all_cons, Bool.and_eq_true] at h
    simp [flushLoop, h.1, ih h.2]

/-- Mutating the first element satisfying `p` is a point update at some
index whose element satisfies `p`. -/
theorem updateFirst_any (p : SyncQueueItem → Bool)
    (f : SyncQueueItem → SyncQueueItem) (l : List SyncQueueItem)
    (h : l.any p = true) :
    ∃ j : Fin l.length, p (l.get j) = true
      ∧ updateFirst p f l = l.set j (f (l.get j)) := by
  induction l with
  | nil => simp at h
  | cons x xs ih =>
    by_cases hx : p x
    · exact ⟨⟨0, by simp⟩, hx, by simp [updateFirst, hx]⟩
    · have h2 : xs.any p = true := by simpa [hx] using h
      obtain ⟨j, hj, he⟩ := ih h2
      refine ⟨⟨j.val + 1, by simp only [List.length_cons]; exact Nat.succ_lt_succ j.isLt⟩, ?_, ?_⟩
      · simpa using hj
      · simp [updateFirst, hx, he]

/-- The `by_action` fold counts, for every key, the items with that action. -/
theorem by_action_count (q : List SyncQueueItem) (m : String → Nat) (a : String) :
    (q.foldl (fun m i => fun k => if k == i.action then m i.action + 1 else m k) m) a
      = m a + (q.filter (fun i => i.action == a)).length := by
  induction q generalizing m with
  | nil => simp
  | cons i rest ih =>
    simp only [List.foldl_cons, List.filter_cons]
    rw [ih]
    by_cases h : i.action == a
    · have ha : i.action = a := by simpa using h
      subst ha
      simp
      omega
    · have ha : ¬ i.action = a := by simpa using h
      have ha2 : (a == i.action) = false := by
        rw [beq_eq_false_iff_ne]
        exact fun hEq => ha hEq.symm
      simp [h, ha2]

/-- When the target id is present, `resolve_conflict` either ends in
`persistAfter` of some mutated queue or is the UnknownStrategy error that
changes nothing. -/
theorem resolve_conflict_shape (item_id : String) (res : ConflictResolution)
    (s : ElectricSync) (fs : FsState)
    (hany : s.queue.any (fun i => i.id == item_id) = true) :
    (∃ q2, resolve_conflict item_id res s fs = persistAfter q2 s fs)
  ∨ resolve_conflict item_id res s fs
      = (Except.error "Unknown conflict strategy", s, fs) := by
  simp only [resolve_conflict, hany, if_true]
  split
  · exact Or.inl ⟨_, rfl⟩
  · cases res.resolved_content
    · exact Or.inl ⟨_, rfl⟩
    · exact Or.inl ⟨_, rfl⟩
  · exact Or.inr rfl

/-! Claim theorems. -/

/-- C1: the spec requires resolve_conflict with strategy "merge" and no
`resolved_content` to fail with the MissingMergeContent error.  The code's
`if let Some(content)` has no else branch: evaluated on a queue holding the
pending item "i1", the call instead returns success, leaves the item and
queue unmodified, and re-persists the unchanged queue — the required error
is never produced.  (The second half of the claim — with `resolved_content`
present the content is overwritten and the item marked pending — does hold,
as the last two conjuncts show.) -/
theorem resolve_merge_without_content_silently_succeeds :
    (resolve_conflict "i1" exMergeNone ⟨[exItem1]⟩ exFsOk).1 = Except.ok ()
  ∧ (resolve_conflict "i1" exMergeNone ⟨[exItem1]⟩ exFsOk).2.1 = ⟨[exItem1]⟩
  ∧ (resolve_conflict "i1" exMergeNone ⟨[exItem1]⟩ exFsOk).2.2.snapshot
      = some (encodeItems [exItem1])
  ∧ (resolve_conflict "i1" ⟨"merge", "local-v1", "remote-v1", some "new"⟩
        ⟨[exItem1]⟩ exFsOk).1 = Except.ok ()
  ∧ (resolve_conflict "i1" ⟨"merge", "local-v1", "remote-v1", some "new"⟩
        ⟨[exItem1]⟩ exFsOk).2.1
      = ⟨[⟨"i1", "update", "/x", some "new", 1, false⟩]⟩ :=
  ⟨rfl, rfl, rfl, rfl, rfl⟩

/-- C2 counterexample: the claim promises that on every failure path,
including a persistence failure, the in-memory queue is exactly as before
the call.  Resolving "i1" by last-write-wins on a queue whose item is
currently synced, against a file system whose write fails, returns the
persistence error — yet the in-memory item has already been marked
`synced = false`, so the queue is not as before. -/
theorem resolve_persist_failure_mutates_queue :
    (resolve_conflict "i1" exLww ⟨[exItem1S]⟩ exFsBadWrite).1
      = Except.error "Failed to write queue"
  ∧ (resolve_conflict "i1" exLww ⟨[exItem1S]⟩ exFsBadWrite).2.1
      ≠ (⟨[exItem1S]⟩ : ElectricSync) :=
  ⟨rfl, by decide⟩

/-- C2 amended: resolving an id absent from the queue fails with
ItemNotFound ("Item not found") changing nothing; an unrecognized strategy
on a present id fails with UnknownStrategy ("Unknown conflict strategy")
changing nothing; on every error outcome the persisted snapshot is
untouched (though on a persistence failure the in-memory mutation may
already have been applied); on success the snapshot holds exactly the
updated in-memory queue. -/
theorem resolve_conflict_failure_atomicity (item_id : String)
    (res : ConflictResolution) (s : ElectricSync) (fs : FsState) :
    (s.queue.any (fun i => i.id == item_id) = false →
      resolve_conflict item_id res s fs = (Except.error "Item not found", s, fs))
  ∧ (s.queue.any (fun i => i.id == item_id) = true →
      res.strategy ≠ "last-write-wins" → res.strategy ≠ "merge" →
      resolve_conflict item_id res s fs
        = (Except.error "Unknown conflict strategy", s, fs))
  ∧ (∀ e, (resolve_conflict item_id res s fs).1 = Except.error e →
      (resolve_conflict item_id res s fs).2.2 = fs)
  ∧ ((resolve_conflict item_id res s fs).1 = Except.ok () →
      (resolve_conflict item_id res s fs).2.2.snapshot
        = some (encodeItems (resolve_conflict item_id res s fs).2.1.queue)) := by
  refine ⟨?_, ?_, ?_, ?_⟩
  · intro h
    simp [resolve_conflict, h]
  · intro h h1 h2
    simp only [resolve_conflict, h, if_true]
  · intro e h
    by_cases hany : s.queue.any (fun i => i.id == item_id)
    · rcases resolve_conflict_shape item_id res s fs hany with ⟨q2, hq⟩ | hq
      · rw [hq] at h ⊢
        exact persistAfter_error_fs _ _ _ _ h
      · rw [hq]
    · simp [resolve_conflict, hany]
  · intro h
    by_cases hany : s.queue.any (fun i => i.id == item_id)
    · rcases resolve_conflict_shape item_id res s fs hany with ⟨q2, hq⟩ | hq
      · rw [hq] at h ⊢
        rw [persistAfter_queue]
        exact persistAfter_ok_fs _ _ _ h
      · rw [hq] at h
        exact absurd h (by simp)
    · simp [resolve_conflict, hany] at h

/-- C2 amended witness: the ItemNotFound and UnknownStrategy branches at
concrete inputs. -/
theorem resolve_conflict_failure_atomicity_witness :
    resolve_conflict "missing-id" exMergeNone ⟨[exItem1]⟩ exFsOk
      = (Except.error "Item not found", ⟨[exItem1]⟩, exFsOk)
  ∧ resolve_conflict "i1" exBogus ⟨[exItem1]⟩ exFsOk
      = (Except.error "Unknown conflict strategy", ⟨[exItem1]⟩, exFsOk) :=
  ⟨(resolve_conflict_failure_atomicity "missing-id" exMergeNone ⟨[exItem1]⟩ exFsOk).1
      (by decide),
   (resolve_conflict_failure_atomicity "i1" exBogus ⟨[exItem1]⟩ exFsOk).2.1
      (by decide) (by decide) (by decide)⟩

/-- C3 counterexample: the claim promises that clear() persists the empty
queue and reports a persistence failure to the caller.  On a file system
whose write fails, clear empties the in-memory queue, leaves the old
non-empty snapshot on disk, and returns no error indication at all (its
Rust signature has no error channel: `let _ = self.persist_queue();`). -/
theorem clear_swallows_persist_failure :
    clear ⟨[exItem1S]⟩ exFsBadWrite = (⟨[]⟩, exFsBadWrite)
  ∧ exFsBadWrite.snapshot = some (encodeItems [exItem1S])
  ∧ encodeItems [exItem1S] ≠ encodeItems [] :=
  ⟨rfl, rfl, by intro h; simp [encodeItems] at h⟩

/-- C3 amended: clear() discards all items from the in-memory queue and
attempts to persist the empty queue, but persistence is best-effort: on
write success the snapshot becomes the empty queue, on write failure the
old snapshot is silently kept and the caller receives no error. -/
theorem clear_is_best_effort (s : ElectricSync) (fs : FsState) :
    (clear s fs).1.queue = []
  ∧ (fs.writeFails = false → (clear s fs).2.snapshot = some (encodeItems []))
  ∧ (fs.writeFails = true → (clear s fs).2 = fs) := by
  unfold clear persist_queue
  by_cases hw : fs.writeFails <;> simp [hw]

/-- C3 amended witness: both persistence outcomes at concrete inputs. -/
theorem clear_is_best_effort_witness :
    (clear ⟨[exItem1S]⟩ exFsBadWrite).2 = exFsBadWrite
  ∧ (clear ⟨[exItem1]⟩ exFsOk).2.snapshot = some (encodeItems []) :=
  ⟨(clear_is_best_effort ⟨[exItem1S]⟩ exFsBadWrite).2.2 rfl,
   (clear_is_best_effort ⟨[exItem1]⟩ exFsOk).2.1 rfl⟩

/-- C4: whenever flush returns successfully (for any adapter), no item with
`synced = true` remains in the in-memory queue, and the persisted snapshot
is exactly the serialization of that pruned queue — so no synced item
remains in the persisted snapshot either. -/
theorem flush_prunes_synced (adapter : SyncQueueItem → Except String Bool)
    (s : ElectricSync) (fs : FsState) (r : FlushResult)
    (s2 : ElectricSync) (fs2 : FsState)
    (h : flush adapter s fs = (Except.ok r, s2, fs2)) :
    (∀ i ∈ s2.queue, i.synced = false)
  ∧ fs2.snapshot = some (encodeItems s2.queue) := by
  unfold flush persist_queue at h
  by_cases hw : fs.writeFails <;> simp [hw] at h
  obtain ⟨hr, hs2, hfs2⟩ := h
  constructor
  · intro i hi
    rw [← hs2] at hi
    have := List.of_mem_filter hi
    simpa using this
  · rw [← hfs2, ← hs2]

/-- C4 witness: flushing a single pending item through the mock adapter
succeeds, prunes it, and persists the empty queue. -/
theorem flush_prunes_synced_witness :
    flush sync_item ⟨[exItem1]⟩ exFsOk
      = (Except.ok ⟨1, 0, []⟩, ⟨[]⟩, ⟨some (encodeItems []), false, false⟩)
  ∧ ((∀ i ∈ (⟨[]⟩ : ElectricSync).queue, i.synced = false)
      ∧ (⟨some (encodeItems []), false, false⟩ : FsState).snapshot
          = some (encodeItems (⟨[]⟩ : ElectricSync).queue)) :=
  ⟨rfl,
   flush_prunes_synced sync_item ⟨[exItem1]⟩ exFsOk ⟨1, 0, []⟩ ⟨[]⟩
     ⟨some (encodeItems []), false, false⟩ rfl⟩

/-- C5: a flush hands the remote sync adapter exactly the items with
`synced = false`, one call per item, in queue (enqueue) order — the call
trace equals `get_pending`. -/
theorem flush_calls_pending_in_order (adapter : SyncQueueItem → Except String Bool)
    (s : ElectricSync) : flushCalls adapter s = get_pending s :=
  flushLoop_calls adapter s.queue

/-- C6 counterexample: the claim says a queue with no pending items leaves
the persisted store contents unchanged, but a queue holding only an
already-synced item is pruned by flush and the smaller (empty) queue is
persisted: the snapshot changes. -/
theorem flush_synced_only_rewrites_store :
    (flush sync_item ⟨[exItem1S]⟩ exFsSyncedSnap).1 = Except.ok ⟨0, 0, []⟩
  ∧ (flush sync_item ⟨[exItem1S]⟩ exFsSyncedSnap).2.2.snapshot
      ≠ exFsSyncedSnap.snapshot := by
  refine ⟨rfl, ?_⟩
  intro h
  have h2 : some (encodeItems []) = some (encodeItems [exItem1S]) := h
  simp [encodeItems] at h2

/-- C6 amended: for any adapter, flushing a queue with no pending items
returns processed = 0, failed = 0, conflicts = [] and persists the empty
queue (synced-only items are pruned); the persisted store contents are
unchanged exactly when they already were the empty-queue snapshot —
in particular whenever the queue was empty and in sync with the store. -/
theorem flush_no_pending_idempotent (adapter : SyncQueueItem → Except String Bool)
    (s : ElectricSync) (fs : FsState)
    (hall : s.queue.all (fun i => i.synced) = true)
    (hw : fs.writeFails = false) :
    (flush adapter s fs).1 = Except.ok ⟨0, 0, []⟩
  ∧ (flush adapter s fs).2.1.queue = []
  ∧ (flush adapter s fs).2.2.snapshot = some (encodeItems [])
  ∧ (fs.snapshot = some (encodeItems []) → (flush adapter s fs).2.2 = fs) := by
  have hl := flushLoop_all_synced adapter s.queue hall
  have hfil : s.queue.filter (fun i => !i.synced) = [] := by
    rw [List.filter_eq_nil_iff]
    intro a ha
    have := List.all_eq_true.1 hall a ha
    simp at this
    simp [this]
  unfold flush persist_queue
  rw [hl]
  simp only [hfil, hw]
  refine ⟨rfl, rfl, rfl, ?_⟩
  intro hsnap
  simp
  cases fs with
  | mk snap w rdf => simp_all

/-- C6 amended witness: a queue holding one synced item, store in sync. -/
theorem flush_no_pending_idempotent_witness :
    (⟨[exItem1S]⟩ : ElectricSync).queue.all (fun i => i.synced) = true
  ∧ ((flush sync_item ⟨[exItem1S]⟩ exFsSyncedSnap).1 = Except.ok ⟨0, 0, []⟩
      ∧ (flush sync_item ⟨[exItem1S]⟩ exFsSyncedSnap).2.1.queue = []
      ∧ (flush sync_item ⟨[exItem1S]⟩ exFsSyncedSnap).2.2.snapshot
          = some (encodeItems [])
      ∧ (exFsSyncedSnap.snapshot = some (encodeItems []) →
          (flush sync_item ⟨[exItem1S]⟩ exFsSyncedSnap).2.2 = exFsSyncedSnap)) :=
  ⟨by decide,
   flush_no_pending_idempotent sync_item ⟨[exItem1S]⟩ exFsSyncedSnap (by decide) rfl⟩

/-- C7: persisting any queue and loading it back reproduces the identical
ordered sequence of items, every field preserved exactly. -/
theorem save_load_roundtrip (items : List SyncQueueItem) (s : ElectricSync)
    (fs fs2 : FsState) (hw : persist_queue items fs = Except.ok fs2)
    (hr : fs2.readFails = false) :
    load_queue s fs2 = Except.ok { s with queue := items } := by
  unfold persist_queue at hw
  by_cases h : fs.writeFails <;> simp [h] at hw
  subst hw
  simp at hr
  simp [load_queue, hr, decodeItems_encodeItems]

/-- C7 witness: a two-item queue written from a fresh file system. -/
theorem save_load_roundtrip_witness :
    persist_queue [exItem1, exItem2] ⟨none, false, false⟩
      = Except.ok ⟨some (encodeItems [exItem1, exItem2]), false, false⟩
  ∧ load_queue ⟨[]⟩ ⟨some (encodeItems [exItem1, exItem2]), false, false⟩
      = Except.ok ⟨[exItem1, exItem2]⟩ :=
  ⟨rfl,
   save_load_roundtrip [exItem1, exItem2] ⟨[]⟩ ⟨none, false, false⟩
     ⟨some (encodeItems [exItem1, exItem2]), false, false⟩ rfl rfl⟩

/-- C8: get_stats is a pure function of the in-memory queue (its Lean type
takes the state and returns only a QueueStats, mirroring the Rust `&self`
receiver — no mutation is possible); total counts all items, pending the
unsynced ones, synced is their difference, and by_action counts the items
of each action; the 3-item example of the spec evaluates as claimed. -/
theorem get_stats_correct (s : ElectricSync) (a : String) :
    (get_stats s).total = s.queue.length
  ∧ (get_stats s).pending = (get_pending s).length
  ∧ (get_stats s).synced = s.queue.length - (get_pending s).length
  ∧ (get_stats s).by_action a
      = (s.queue.filter (fun i => i.action == a)).length
  ∧ (get_stats statsExample).total = 3
  ∧ (get_stats statsExample).pending = 3
  ∧ (get_stats statsExample).synced = 0
  ∧ (get_stats statsExample).by_action "create" = 2
  ∧ (get_stats statsExample).by_action "update" = 1 := by
  refine ⟨rfl, rfl, rfl, ?_, rfl, rfl, rfl, rfl, rfl⟩
  have := by_action_count s.queue (fun _ => 0) a
  simpa [get_stats] using this

/-- C9: resolving a present id with the last-write-wins strategy only
clears the `synced` flag of the (first) item with that id: its id, action,
path, content and timestamp keep their exact values, and every other queue
position is untouched (the result is a point update). -/
theorem resolve_lww_only_clears_synced (item_id : String)
    (res : ConflictResolution) (s : ElectricSync) (fs : FsState)
    (hres : res.strategy = "last-write-wins")
    (h : s.queue.any (fun i => i.id == item_id) = true) :
    ∃ j : Fin s.queue.length,
      (s.queue.get j).id = item_id
      ∧ (resolve_conflict item_id res s fs).2.1.queue
          = s.queue.set j
              ⟨(s.queue.get j).id, (s.queue.get j).action, (s.queue.get j).path,
                (s.queue.get j).content, (s.queue.get j).timestamp, false⟩ := by
  obtain ⟨j, hj, he⟩ := updateFirst_any (fun i => i.id == item_id)
    (fun i => { i with synced := false }) s.queue h
  refine ⟨j, by simpa using hj, ?_⟩
  have hq : (resolve_conflict item_id res s fs).2.1.queue
      = updateFirst (fun i => i.id == item_id)
          (fun i => { i with synced := false }) s.queue := by
    simp [resolve_conflict, h, hres, persistAfter_queue]
  rw [hq, he]

/-- C9 witness: a one-item queue whose item is currently synced. -/
theorem resolve_lww_only_clears_synced_witness :
    (⟨[exItem1S]⟩ : ElectricSync).queue.any (fun i => i.id == "i1") = true
  ∧ ∃ j : Fin (⟨[exItem1S]⟩ : ElectricSync).queue.length,
      ((⟨[exItem1S]⟩ : ElectricSync).queue.get j).id = "i1"
      ∧ (resolve_conflict "i1" exLww ⟨[exItem1S]⟩ exFsSyncedSnap).2.1.queue
          = (⟨[exItem1S]⟩ : ElectricSync).queue.set j
              ⟨((⟨[exItem1S]⟩ : ElectricSync).queue.get j).id,
                ((⟨[exItem1S]⟩ : ElectricSync).queue.get j).action,
                ((⟨[exItem1S]⟩ : ElectricSync).queue.get j).path,
                ((⟨[exItem1S]⟩ : ElectricSync).queue.get j).content,
                ((⟨[exItem1S]⟩ : ElectricSync).queue.get j).timestamp, false⟩ :=
  ⟨by decide,
   resolve_lww_only_clears_synced "i1" exLww ⟨[exItem1S]⟩ exFsSyncedSnap rfl
     (by decide)⟩

/-- C10: when flush returns a FlushResult, processed + failed + number of
conflict ids equals the number of items that were pending at the start,
and the conflict id list is an order-preserving selection (sublist) of the
pending items' ids — each conflict id stems from exactly one pending item. -/
theorem flush_result_partitions_pending
    (adapter : SyncQueueItem → Except String Bool)
    (s : ElectricSync) (fs : FsState) (r : FlushResult)
    (s2 : ElectricSync) (fs2 : FsState)
    (h : flush adapter s fs = (Except.ok r, s2, fs2)) :
    r.processed + r.failed + r.conflicts.length = (get_pending s).length
  ∧ r.conflicts.Sublist ((get_pending s).map (fun i => i.id)) := by
  have hr : r = (flushLoop adapter s.queue).2.1 := by
    unfold flush persist_queue at h
    by_cases hw : fs.writeFails <;> simp [hw] at h
    exact h.1.symm
  subst hr
  have := flushLoop_partition adapter s.queue
  simpa [get_pending] using this

/-- C10 witness: three pending items routed to success, conflict and
failure respectively: 1 + 1 + 1 = 3 and the conflict list is ["c"]. -/
theorem flush_result_partitions_pending_witness :
    flush mixedAdapter mixedQueue ⟨none, false, false⟩
      = (Except.ok ⟨1, 1, ["c"]⟩,
          ⟨[⟨"c", "create", "/b", some "2", 2, false⟩,
            ⟨"f", "update", "/c", none, 3, false⟩]⟩,
          ⟨some (encodeItems
              [⟨"c", "create", "/b", some "2", 2, false⟩,
                ⟨"f", "update", "/c", none, 3, false⟩]), false, false⟩)
  ∧ ((1 : Nat) + 1 + (["c"] : List String).length = (get_pending mixedQueue).length
      ∧ (["c"] : List String).Sublist ((get_pending mixedQueue).map (fun i => i.id))) :=
  ⟨rfl,
   flush_result_partitions_pending mixedAdapter mixedQueue ⟨none, false, false⟩
     ⟨1, 1, ["c"]⟩
     ⟨[⟨"c", "create", "/b", some "2", 2, false⟩,
       ⟨"f", "update", "/c", none, 3, false⟩]⟩
     ⟨some (encodeItems
         [⟨"c", "create", "/b", some "2", 2, false⟩,
           ⟨"f", "update", "/c", none, 3, false⟩]), false, false⟩ rfl⟩
